import Mathlib

/-!
Shallow embedding of `riemann-docker-agent` (`src/main.go`) and proofs about
its event pipeline.  Go strings become `String`, Go `int64` becomes `Int`,
Go floats (`float64` / `float32`) become `ℚ` (every value occurring in the
claims is exactly representable), Go channels become explicit `List` queues,
and fallible external calls (docker inspect, riemann dial/send) become
oracle functions passed as parameters.
-/

namespace RiemannDockerAgent

/-- Subset of `dockerclient.ContainerInfo` relevant to the pipeline: the code
only ever reads `Name` (templates may also read other fields, modelled by the
template field selectors below). -/
structure ContainerInfo where
  Name : String
  Created : String
deriving DecidableEq, Repr

/-- Go zero value `dockerclient.ContainerInfo{}`: all fields empty. -/
def emptyContainerInfo : ContainerInfo := { Name := "", Created := "" }

/-- Embedding of `DockerEventInfo` from `main.go`.  The Go field
`ContainerInfo *dockerclient.ContainerInfo` is initialised to a pointer to the
empty struct and only ever replaced by a successful inspect result, so it is
modelled as a plain `ContainerInfo` value (absence of metadata = the empty
struct, exactly as in the code). -/
structure DockerEventInfo where
  Host : String
  Time : Int
  ContainerId : String
  Status : String
  Image : String
  Name : String
  ContainerInfo : ContainerInfo
deriving DecidableEq, Repr

/-- Embedding of `dockerclient.Event`: the raw event handed to
`dockerEventCallback`. -/
structure DockerEvent where
  Id : String
  Status : String
  From : String
  Time : Int
deriving DecidableEq, Repr

/-- Field selectors a template may reference on `DockerEventInfo`
(`text/template` navigates the struct fields; an unresolvable selector is an
execution error). -/
inductive TemplateField where
  | host
  | containerId
  | status
  | image
  | name
  | time
  | containerInfoName
  | containerInfoCreated
  | unknown (fieldName : String)
deriving DecidableEq, Repr

/-- One piece of a parsed `text/template`: literal text or a `{{.Field}}`
action. -/
inductive TemplatePart where
  | lit (s : String)
  | field (f : TemplateField)
deriving DecidableEq, Repr

/-- A compiled template (`template.Template` after successful `Parse`):
a sequence of literal pieces and field actions. -/
def Template := List TemplatePart

instance : DecidableEq Template := inferInstanceAs (DecidableEq (List TemplatePart))

/-- Evaluation of a single field action against the event, as
`text/template` execution does: known struct fields resolve to their values,
an unknown selector is an execution error. -/
def execField (f : TemplateField) (info : DockerEventInfo) : Except String String :=
  match f with
  | .host => .ok info.Host
  | .containerId => .ok info.ContainerId
  | .status => .ok info.Status
  | .image => .ok info.Image
  | .name => .ok info.Name
  | .time => .ok (toString info.Time)
  | .containerInfoName => .ok info.ContainerInfo.Name
  | .containerInfoCreated => .ok info.ContainerInfo.Created
  | .unknown fieldName => .error ("cannot evaluate field " ++ fieldName)

/-- Template execution (`tpl.Execute(&doc, info)`): concatenates the pieces,
failing if any field action fails. -/
def execTemplateE (tpl : Template) (info : DockerEventInfo) : Except String String :=
  match tpl with
  | [] => .ok ""
  | .lit s :: rest =>
    match execTemplateE rest info with
    | .ok r => .ok (s ++ r)
    | .error e => .error e
  | .field f :: rest =>
    match execField f info with
    | .ok v =>
      match execTemplateE rest info with
      | .ok r => .ok (v ++ r)
      | .error e => .error e
    | .error e => .error e

/-- Embedding of `execTemplate` from `main.go`: runs the template and, when
execution fails, logs and returns the empty string instead of raising. -/
def execTemplate (tpl : Template) (info : DockerEventInfo) : String :=
  match execTemplateE tpl info with
  | .ok s => s
  | .error _ => ""

/-- Embedding of `EventConfig` from `main.go`.  The Go
`Attributes map[string]*template.Template` is represented as an association
list with (by Go map semantics) pairwise-distinct keys; its order stands for
the arbitrary iteration order of a Go map. -/
structure EventConfig where
  Host : String
  Service : Template
  Ttl : ℚ
  Description : Template
  Tags : List Template
  State : Template
  Metric : ℚ
  Attributes : List (String × Template)
deriving DecidableEq

/-- Embedding of `raidman.Event`, the outbound record.  Field defaults are
the Go zero values, used for fields omitted from a struct literal. -/
structure REvent where
  Ttl : ℚ := 0
  Time : Int := 0
  Tags : List String := []
  Host : String := ""
  State : String := ""
  Service : String := ""
  Metric : ℚ := 0
  Description : String := ""
  Attributes : List (String × String) := []
deriving DecidableEq, Repr

/-- Go `strings.Replace(s, "/", "", 1)` on the underlying characters: remove
the first occurrence of `c`, leave everything else unchanged. -/
def removeFirstChar (c : Char) : List Char → List Char
  | [] => []
  | x :: xs => if x = c then xs else x :: removeFirstChar c xs

/-- Embedding of `strings.Replace(s, "/", "", 1)` (the pattern is a single
character, so substring replacement coincides with character removal). -/
def goReplaceFirst (s : String) (c : Char) : String := ⟨removeFirstChar c s.data⟩

/-- Name assignment from `main.go` lines 198-202: if the (possibly empty)
container info carries a non-empty name, use it with the first `/` removed;
otherwise fall back to the event id. -/
def deriveName (containerInfo : ContainerInfo) (id : String) : String :=
  if containerInfo.Name ≠ "" then goReplaceFirst containerInfo.Name '/' else id

/-- Embedding of `dockerEventCallback` from `main.go`, with the docker
`InspectContainer` call abstracted as the oracle
`inspect : containerId → Option ContainerInfo` (`none` = inspect error).
Returns the emitted `DockerEventInfo` together with a flag recording whether
the inspect call was made. -/
def dockerEventCallback (inspect : String → Option ContainerInfo)
    (event : DockerEvent) : DockerEventInfo × Bool :=
  let base : DockerEventInfo :=
    { Host := ""
      Time := event.Time
      ContainerId := event.Id
      Status := event.Status
      Image := event.From
      Name := ""
      ContainerInfo := emptyContainerInfo }
  let enriched : DockerEventInfo × Bool :=
    if event.Status ≠ "destroy" then
      match inspect event.Id with
      | some info => ({ base with ContainerInfo := info }, true)
      | none => (base, true)
    else
      (base, false)
  ({ enriched.1 with Name := deriveName enriched.1.ContainerInfo event.Id }, enriched.2)

/-- Embedding of `getRiemannEvent` from `main.go`: sets `info.Host` from the
config (the Go code mutates the struct through the pointer before rendering),
renders every template, and builds the outbound event.  `Ttl` and the other
omitted struct-literal fields take the Go zero value. -/
def getRiemannEvent (info : DockerEventInfo) (cfg : EventConfig) : REvent :=
  let info := { info with Host := cfg.Host }
  { Host := info.Host
    Time := info.Time
    Description := execTemplate cfg.Description info
    Service := execTemplate cfg.Service info
    Metric := cfg.Metric
    State := execTemplate cfg.State info
    Tags := cfg.Tags.map (fun t => execTemplate t info)
    Attributes := cfg.Attributes.map (fun kv => (kv.1, execTemplate kv.2 info)) }

/-- Opaque token standing for a live `raidman.Client` connection. -/
structure RiemannClient where
  id : Nat
deriving DecidableEq, Repr

/-- Loop body of `connectToRiemann`: `i` is the current attempt index,
`fuel` the number of attempts left (the Go loop runs `i = 0 .. 9`).
`dial i = some c` means attempt `i` connects; `none` means it fails, and the
code then sleeps `2^i` seconds before the next attempt.  Returns `none`
(= `panic`) when the fuel runs out, together with the list of sleeps
performed, in order. -/
def connectLoop (dial : Nat → Option RiemannClient) :
    Nat → Nat → Option RiemannClient × List Nat
  | _, 0 => (none, [])
  | i, fuel + 1 =>
    match dial i with
    | some c => (some c, [])
    | none =>
      let rest := connectLoop dial (i + 1) fuel
      (rest.1, 2 ^ i :: rest.2)

/-- Embedding of `connectToRiemann` from `main.go`: up to 10 dial attempts
with exponential backoff; exhausting them panics (modelled as `none`).
The URL re-parse inside the loop is a separate immediately-fatal path for a
malformed URL and is not modelled (the dial oracle already covers every
outcome of a well-formed URL). -/
def connectToRiemann (dial : Nat → Option RiemannClient) :
    Option RiemannClient × List Nat :=
  connectLoop dial 0 10

/-- State of the `riemannSender` goroutine: the outbound channel contents
(`none` is the nil sentinel that stops the loop) and the connection handle
(`nil` = `none`). -/
structure SenderState where
  queue : List (Option REvent)
  client : Option RiemannClient
deriving DecidableEq, Repr

/-- Result of one iteration of the `riemannSender` loop. -/
inductive SenderStep where
  | halted
  | next (s : SenderState)
deriving DecidableEq, Repr

/-- One iteration of the `riemannSender` loop from `main.go`: dequeue; a nil
event stops the loop; connect if no client is held; on send failure
(`sendOk client ev = false`) drop the client and re-enqueue the event at the
back of the channel.  An empty queue blocks (state unchanged). -/
def riemannSenderStep (connect : Unit → RiemannClient)
    (sendOk : RiemannClient → REvent → Bool) (s : SenderState) : SenderStep :=
  match s.queue with
  | [] => .next s
  | none :: _ => .halted
  | some ev :: rest =>
    let client :=
      match s.client with
      | none => connect ()
      | some c => c
    if sendOk client ev then
      .next { queue := rest, client := some client }
    else
      .next { queue := rest ++ [some ev], client := none }

/-- Embedding of the heartbeat event construction in `main` (`hb :=
raidman.Event{...}`, lines 139-148): every configured heartbeat flag is
copied, `Ttl` included; `Time` is omitted from the Go struct literal and so
starts at the zero value, stamped later by the generator. -/
def mkHeartbeat (host description service : String) (metric : ℚ) (state : String)
    (tags : List String) (ttl : ℚ) (attributes : List (String × String)) : REvent :=
  { Host := host
    Description := description
    Service := service
    Metric := metric
    State := state
    Tags := tags
    Ttl := ttl
    Attributes := attributes }

/-- Go conversion of a float to an integer type (`time.Duration(w)`):
truncation toward zero. -/
def goTruncToInt (q : ℚ) : ℤ := if 0 ≤ q then ⌊q⌋ else ⌈q⌉

/-- Heartbeat firing period in seconds from `waitForEvents`
(`interval := time.Duration(heartbeat.Ttl/2) * time.Second`): the float
`Ttl/2` is truncated toward zero by the conversion to `time.Duration` before
being scaled to seconds. -/
def heartbeatIntervalSeconds (ttl : ℚ) : ℤ := goTruncToInt (ttl / 2)

/-- Startup decision in `waitForEvents`: the heartbeat generator goroutine is
started iff `heartbeat.Service != ""`. -/
def heartbeatEnabled (hb : REvent) : Bool := hb.Service ≠ ""

/-- Value-level content the heartbeat generator contributes to the sender
queue over a run: one stamped copy of the configured heartbeat per tick when
the stage was started, nothing at all when it was not. -/
def heartbeatRecords (hb : REvent) (ticks : List Int) : List REvent :=
  if hb.Service ≠ "" then ticks.map (fun t => { hb with Time := t }) else []

/-- Records fed into the sender queue by the two producer stages of
`waitForEvents` over a run: the transformer output for each docker event, and
the heartbeat output for each tick (their interleaving on the shared channel
is unspecified and not modelled). -/
def senderQueueInputs (cfg : EventConfig) (hb : REvent)
    (events : List DockerEventInfo) (ticks : List Int) : List REvent × List REvent :=
  (events.map (fun e => getRiemannEvent e cfg), heartbeatRecords hb ticks)

/-- Pointer placed on the `riemannEventsChan` channel: the heartbeat
generator always sends the one shared `&hb` pointer, while the transformer
sends a pointer to a freshly allocated event per docker event
(`getRiemannEvent` returns `&ev` of a new local). -/
inductive QPtr where
  | hb
  | fresh (ev : REvent)
deriving DecidableEq, Repr

/-- Heap-and-queue state of the pipeline: the single shared heartbeat object
(the `hb` of `main`, reachable through every `QPtr.hb` on the queue) and the
channel contents as pointers. -/
structure PipelineState where
  hbEv : REvent
  queue : List QPtr
deriving DecidableEq, Repr

/-- Dereference a queued pointer in a given state: the shared heartbeat
pointer reads the current heartbeat object, a fresh record reads its own
immutable allocation. -/
def derefQ (s : PipelineState) : QPtr → REvent
  | .hb => s.hbEv
  | .fresh ev => ev

/-- One tick of `heartbeatGenerator`: `ev.Time = t.Unix()` mutates the shared
heartbeat object in place, then the same pointer is enqueued
(`outChan <- ev`). -/
def heartbeatTick (s : PipelineState) (t : Int) : PipelineState :=
  { hbEv := { s.hbEv with Time := t }, queue := s.queue ++ [QPtr.hb] }

/-- One step of `eventTransformer`: enqueue a pointer to the freshly built
record for a docker event (`outChan <- getRiemannEvent(ev, cfg)`). -/
def transformerEnqueue (cfg : EventConfig) (ev : DockerEventInfo)
    (s : PipelineState) : PipelineState :=
  { s with queue := s.queue ++ [QPtr.fresh (getRiemannEvent ev cfg)] }

/-- Re-enqueue in `riemannSender` (`evChan <- ev`): the same pointer goes to
the back of the channel, no record is modified. -/
def senderRequeue (s : PipelineState) (p : QPtr) : PipelineState :=
  { s with queue := s.queue ++ [p] }

/-- Association-list lookup with decidable key equality, the observable
mapping of a rendered attributes list (a Go `map[string]string` compares by
lookups, not by representation order). -/
def lookupAttr (k : String) : List (String × String) → Option String
  | [] => none
  | kv :: rest => if k = kv.1 then some kv.2 else lookupAttr k rest

/-- Records equal as telemetry data: every scalar field equal, tags equal as
an ordered sequence, and attributes equal as a key-to-value mapping. -/
def REventEquiv (a b : REvent) : Prop :=
  a.Host = b.Host ∧ a.Time = b.Time ∧ a.Service = b.Service ∧
  a.Description = b.Description ∧ a.State = b.State ∧ a.Metric = b.Metric ∧
  a.Ttl = b.Ttl ∧ a.Tags = b.Tags ∧
  ∀ k, lookupAttr k a.Attributes = lookupAttr k b.Attributes

/-- Sample heartbeat event built from the default flag values of `main`. -/
def sampleHb : REvent :=
  mkHeartbeat "myhost" "docker-agent is alive" "riemann-docker-agent" 0 "ok" [] 60 []

/-- Sample heartbeat with the feature disabled (`--hb-service=""`). -/
def sampleHbDisabled : REvent := { sampleHb with Service := "" }

/-- Sample pipeline state: the heartbeat was stamped with time 100 and its
pointer enqueued, and it is still awaiting delivery. -/
def sampleState0 : PipelineState :=
  { hbEv := { sampleHb with Time := 100 }, queue := [QPtr.hb] }

/-- Sample docker `destroy` event. -/
def sampleEventDestroy : DockerEvent :=
  { Id := "cid1", Status := "destroy", From := "img", Time := 7 }

/-- Sample docker `start` event. -/
def sampleEventStart : DockerEvent :=
  { Id := "cid1", Status := "start", From := "img", Time := 7 }

/-- Inspect oracle whose metadata name is the bare separator `/`. -/
def inspectSlash : String → Option ContainerInfo :=
  fun _ => some { Name := "/", Created := "" }

/-- Inspect oracle that always fails. -/
def inspectNone : String → Option ContainerInfo := fun _ => none

/-- Inspect oracle returning an ordinary rooted container name. -/
def inspectWeb : String → Option ContainerInfo :=
  fun _ => some { Name := "/web1", Created := "2015-06-03" }

/-- Sample normalized event, as emitted by the enricher. -/
def sampleInfo : DockerEventInfo :=
  { Host := ""
    Time := 7
    ContainerId := "cid1"
    Status := "start"
    Image := "img"
    Name := "web1"
    ContainerInfo := { Name := "/web1", Created := "2015-06-03" } }

/-- Template with an unresolvable field: execution fails on every event. -/
def badTemplate : Template := [TemplatePart.field (TemplateField.unknown "Missing")]

/-- Sample configuration whose description template fails to execute. -/
def badCfg : EventConfig :=
  { Host := "myhost"
    Service := [TemplatePart.lit "docker ", TemplatePart.field TemplateField.name]
    Ttl := 60
    Description := badTemplate
    Tags := []
    State := [TemplatePart.field TemplateField.status]
    Metric := 0
    Attributes := [] }

/-- Sample configuration with two attribute renderers, listed in one
iteration order of the Go map. -/
def cfgA : EventConfig :=
  { Host := "myhost"
    Service := [TemplatePart.lit "docker ", TemplatePart.field TemplateField.name]
    Ttl := 60
    Description := [TemplatePart.lit "container event"]
    Tags := [[TemplatePart.lit "docker"]]
    State := [TemplatePart.field TemplateField.status]
    Metric := 0
    Attributes := [("docker-host", [TemplatePart.field TemplateField.host]),
                   ("image", [TemplatePart.field TemplateField.image])] }

/-- The same configuration with the attributes listed in the other iteration
order of the Go map. -/
def cfgB : EventConfig :=
  { cfgA with
    Attributes := [("image", [TemplatePart.field TemplateField.image]),
                   ("docker-host", [TemplatePart.field TemplateField.host])] }

/-- Sample outbound record. -/
def sampleRecord : REvent :=
  { Service := "docker web1 start", Host := "myhost", Time := 7, State := "start" }

/-- Send oracle that always fails (sink down). -/
def alwaysFailSend : RiemannClient → REvent → Bool := fun _ _ => false

/-- Dial oracle that never connects. -/
def dialNever : Nat → Option RiemannClient := fun _ => none

/-- Dial oracle that fails three times, then connects. -/
def dialAt3 : Nat → Option RiemannClient :=
  fun i => if i = 3 then some ⟨7⟩ else none

/-- Two dial oracles agreeing on attempts 0..9 yield the same `connectLoop`
run: the loop consults no attempt outside its fuel window. -/
theorem connectLoop_congr (dial g : Nat → Option RiemannClient) (i fuel : Nat)
    (h : ∀ k, i ≤ k → k < i + fuel → dial k = g k) :
    connectLoop dial i fuel = connectLoop g i fuel := by
  induction fuel generalizing i with
  | zero => rfl
  | succ n ih =>
    have hi : dial i = g i := h i le_rfl (by omega)
    simp only [connectLoop, hi]
    cases hg : g i with
    | some c => rfl
    | none =>
      rw [ih (i + 1) (fun k hk1 hk2 => h k (by omega) (by omega))]

/-- When every attempt in the fuel window fails, `connectLoop` exhausts the
window sleeping `2^k` seconds after each failed attempt `k`, then gives up. -/
theorem connectLoop_all_fail (dial : Nat → Option RiemannClient) (i fuel : Nat)
    (h : ∀ k, i ≤ k → k < i + fuel → dial k = none) :
    connectLoop dial i fuel = (none, (List.range' i fuel).map (fun k => 2 ^ k)) := by
  induction fuel generalizing i with
  | zero => rfl
  | succ n ih =>
    have hi : dial i = none := h i le_rfl (by omega)
    simp only [connectLoop, hi]
    rw [ih (i + 1) (fun k hk1 hk2 => h k (by omega) (by omega))]
    simp [List.range'_succ]

/-- When attempt `j` is the first to succeed inside the fuel window,
`connectLoop` returns that connection after having slept `2^k` seconds for
each failed attempt `k < j`. -/
theorem connectLoop_first_success (dial : Nat → Option RiemannClient)
    (c : RiemannClient) (fuel : Nat) :
    ∀ i j, i ≤ j → j < i + fuel → (∀ k, i ≤ k → k < j → dial k = none) →
      dial j = some c →
      connectLoop dial i fuel = (some c, (List.range' i (j - i)).map (fun k => 2 ^ k)) := by
  induction fuel with
  | zero => omega
  | succ n ih =>
    intro i j hij hlt hfail hsucc
    by_cases hji : i = j
    · subst hji
      simp only [connectLoop, hsucc]
      simp
    · have hi : dial i = none := hfail i le_rfl (by omega)
      simp only [connectLoop, hi]
      rw [ih (i + 1) j (by omega) (by omega) (fun k hk1 hk2 => hfail k (by omega) hk2) hsucc]
      have hsub : j - i = (j - (i + 1)) + 1 := by omega
      rw [hsub, List.range'_succ]
      simp

/-- Claim C2: `connectToRiemann` makes at most 10 dial attempts (its result
depends only on the first 10 attempts of the oracle); after failed attempt
`i` it waits exactly `2^i` seconds before the next attempt (the sleeps of an
all-failing run are `2^0 .. 2^9` in order, and of a run whose first success
is attempt `j` are `2^0 .. 2^(j-1)`); exhausting all 10 attempts panics
(result `none`) instead of returning an error value. -/
theorem connectToRiemann_spec (dial : Nat → Option RiemannClient) :
    (∀ g : Nat → Option RiemannClient, (∀ i, i < 10 → dial i = g i) →
      connectToRiemann dial = connectToRiemann g) ∧
    ((∀ i, i < 10 → dial i = none) →
      connectToRiemann dial = (none, (List.range 10).map (fun i => 2 ^ i))) ∧
    (∀ j c, j < 10 → (∀ i, i < j → dial i = none) → dial j = some c →
      connectToRiemann dial = (some c, (List.range j).map (fun i => 2 ^ i))) := by
  refine ⟨?_, ?_, ?_⟩
  · intro g hg
    exact connectLoop_congr dial g 0 10 (fun k _ hk => hg k (by omega))
  · intro h
    rw [connectToRiemann, connectLoop_all_fail dial 0 10 (fun k _ hk => h k (by omega)),
      List.range_eq_range']
  · intro j c hj hfail hsucc
    rw [connectToRiemann,
      connectLoop_first_success dial c 10 0 j (by omega) (by omega)
        (fun k _ hk => hfail k hk) hsucc]
    simp [List.range_eq_range']

/-- Witness for C2: an always-failing oracle exhausts the 10 attempts
fatally with backoffs 1..512, while an oracle succeeding on attempt 3 slept
1, 2, 4 seconds. -/
theorem connectToRiemann_spec_witness :
    connectToRiemann dialNever = (none, (List.range 10).map (fun i => 2 ^ i)) ∧
    connectToRiemann dialAt3 = (some ⟨7⟩, (List.range 3).map (fun i => 2 ^ i)) :=
  ⟨(connectToRiemann_spec dialNever).2.1 (fun _ _ => rfl),
   (connectToRiemann_spec dialAt3).2.2 3 ⟨7⟩ (by omega) (by decide) rfl⟩

/-- Claim C1: when the send of the dequeued record fails, the sender drops
its connection handle (`client = nil`, forcing a reconnect on the next
iteration) and re-enqueues that same record at the back of the outbound
queue; in particular the record is still in the queue, not discarded. -/
theorem riemannSender_requeue_on_failure (connect : Unit → RiemannClient)
    (sendOk : RiemannClient → REvent → Bool) (ev : REvent)
    (rest : List (Option REvent)) (held : Option RiemannClient)
    (hfail : sendOk (match held with | none => connect () | some c => c) ev = false) :
    riemannSenderStep connect sendOk { queue := some ev :: rest, client := held } =
      SenderStep.next { queue := rest ++ [some ev], client := none } ∧
    some ev ∈ rest ++ [some ev] := by
  constructor
  · cases held <;> simp [riemannSenderStep, hfail]
  · simp

/-- Witness for C1: with a sink whose send always fails, one sender
iteration moves the record to the back of the queue and clears the client. -/
theorem riemannSender_requeue_on_failure_witness :
    riemannSenderStep (fun _ => ⟨0⟩) alwaysFailSend
        { queue := [some sampleRecord], client := none } =
      SenderStep.next { queue := [] ++ [some sampleRecord], client := none } ∧
    some sampleRecord ∈ [] ++ [some sampleRecord] :=
  riemannSender_requeue_on_failure (fun _ => ⟨0⟩) alwaysFailSend sampleRecord [] none rfl

/-- Removing one occurrence of a character from a list that is neither empty
nor the singleton of that character leaves a non-empty list. -/
theorem removeFirstChar_ne_nil (c : Char) (l : List Char) (h : l ≠ []) (h2 : l ≠ [c]) :
    removeFirstChar c l ≠ [] := by
  match l with
  | [] => exact absurd rfl h
  | x :: xs =>
    by_cases hx : x = c
    · subst hx
      simp only [removeFirstChar, if_pos rfl]
      intro hxs
      subst hxs
      exact h2 rfl
    · simp [removeFirstChar, hx]

/-- Dropping the first slash of a non-empty string other than the bare
separator leaves a non-empty string. -/
theorem goReplaceFirst_ne_empty (s : String) (hs : s ≠ "") (hslash : s ≠ "/") :
    goReplaceFirst s '/' ≠ "" := by
  intro h
  have hdata : removeFirstChar '/' s.data = [] := congrArg String.data h
  refine removeFirstChar_ne_nil '/' s.data ?_ ?_ hdata
  · intro hd
    exact hs (String.ext hd)
  · intro hd
    exact hslash (String.ext hd)

/-- Counterexample to claim C3: when the inspected container name is the
bare separator string, the derived name is empty even though the container
id is non-empty, refuting the stated invariant that the name field is never
empty. -/
theorem dockerEventCallback_empty_name_cex :
    sampleEventStart.Id ≠ "" ∧
    (dockerEventCallback inspectSlash sampleEventStart).1.Name = "" := by
  constructor
  · decide
  · rfl

/-- Claim C3 (amended): the derived name equals the metadata name with the
first path-separator occurrence removed (wherever it occurs, not only as a
leading prefix) when the metadata name is non-empty, and equals the
container id otherwise; in the common case of a name with a leading
separator this is exactly the leading separator stripped; the name is
non-empty whenever the container id is non-empty and the metadata name is
not the bare separator string. -/
theorem dockerEventCallback_name_spec (inspect : String → Option ContainerInfo)
    (event : DockerEvent) :
    ((dockerEventCallback inspect event).1.ContainerInfo.Name ≠ "" →
      (dockerEventCallback inspect event).1.Name =
        goReplaceFirst (dockerEventCallback inspect event).1.ContainerInfo.Name '/') ∧
    ((dockerEventCallback inspect event).1.ContainerInfo.Name = "" →
      (dockerEventCallback inspect event).1.Name = event.Id) ∧
    (∀ cs : List Char,
      (dockerEventCallback inspect event).1.ContainerInfo.Name.data = '/' :: cs →
      (dockerEventCallback inspect event).1.Name = ⟨cs⟩) ∧
    (event.Id ≠ "" → (dockerEventCallback inspect event).1.ContainerInfo.Name ≠ "/" →
      (dockerEventCallback inspect event).1.Name ≠ "") := by
  have hname : (dockerEventCallback inspect event).1.Name =
      deriveName (dockerEventCallback inspect event).1.ContainerInfo event.Id := rfl
  rw [hname]
  generalize (dockerEventCallback inspect event).1.ContainerInfo = ci
  refine ⟨?_, ?_, ?_, ?_⟩
  · intro h
    simp [deriveName, h]
  · intro h
    simp [deriveName, h]
  · intro cs hcs
    have hne : ci.Name ≠ "" := by
      intro h
      rw [h] at hcs
      exact List.noConfusion hcs
    simp only [deriveName, ne_eq, hne, not_false_eq_true, if_pos]
    show goReplaceFirst ci.Name '/' = _
    unfold goReplaceFirst
    rw [hcs]
    simp [removeFirstChar]
  · intro hid hslash
    by_cases h : ci.Name = ""
    · simp [deriveName, h, hid]
    · simp only [deriveName, ne_eq, h, not_false_eq_true, if_pos]
      exact goReplaceFirst_ne_empty _ h hslash

/-- Witness for the amended C3: a rooted name `/web1` renders as `web1`, and
a failed inspect falls back to the container id. -/
theorem dockerEventCallback_name_spec_witness :
    ((dockerEventCallback inspectWeb sampleEventStart).1.Name =
      goReplaceFirst (dockerEventCallback inspectWeb sampleEventStart).1.ContainerInfo.Name '/') ∧
    ((dockerEventCallback inspectNone sampleEventStart).1.Name = sampleEventStart.Id) ∧
    ((dockerEventCallback inspectWeb sampleEventStart).1.Name = ⟨"web1".data⟩) ∧
    ((dockerEventCallback inspectWeb sampleEventStart).1.Name ≠ "") :=
  ⟨(dockerEventCallback_name_spec inspectWeb sampleEventStart).1 (by decide),
   (dockerEventCallback_name_spec inspectNone sampleEventStart).2.1 (by decide),
   (dockerEventCallback_name_spec inspectWeb sampleEventStart).2.2.1 "web1".data (by decide),
   (dockerEventCallback_name_spec inspectWeb sampleEventStart).2.2.2 (by decide) (by decide)⟩

/-- Claim C4: a `destroy` event never triggers the inspect lookup and keeps
metadata absent (the empty container info); any other status triggers
exactly one lookup attempt, and a failed lookup still emits the event with
metadata absent. -/
theorem dockerEventCallback_destroy_skips_inspect
    (inspect : String → Option ContainerInfo) (event : DockerEvent) :
    (event.Status = "destroy" →
      (dockerEventCallback inspect event).2 = false ∧
      (dockerEventCallback inspect event).1.ContainerInfo = emptyContainerInfo) ∧
    (event.Status ≠ "destroy" →
      (dockerEventCallback inspect event).2 = true ∧
      (inspect event.Id = none →
        (dockerEventCallback inspect event).1.ContainerInfo = emptyContainerInfo)) := by
  constructor
  · intro h
    simp [dockerEventCallback, h]
  · intro h
    cases hI : inspect event.Id with
    | some info =>
      exact ⟨by simp [dockerEventCallback, h, hI], fun hN => Option.noConfusion hN⟩
    | none =>
      exact ⟨by simp [dockerEventCallback, h, hI], fun _ => by simp [dockerEventCallback, h, hI]⟩

/-- Witness for C4: a concrete `destroy` event skips the lookup, and a
`start` event with a failing inspect still emits with empty metadata. -/
theorem dockerEventCallback_destroy_skips_inspect_witness :
    ((dockerEventCallback inspectWeb sampleEventDestroy).2 = false ∧
      (dockerEventCallback inspectWeb sampleEventDestroy).1.ContainerInfo = emptyContainerInfo) ∧
    ((dockerEventCallback inspectNone sampleEventStart).2 = true ∧
      (dockerEventCallback inspectNone sampleEventStart).1.ContainerInfo = emptyContainerInfo) :=
  ⟨(dockerEventCallback_destroy_skips_inspect inspectWeb sampleEventDestroy).1 rfl,
   ((dockerEventCallback_destroy_skips_inspect inspectNone sampleEventStart).2 (by decide)).1,
   ((dockerEventCallback_destroy_skips_inspect inspectNone sampleEventStart).2 (by decide)).2 rfl⟩

/-- Claim C5: `execTemplate` never raises to its caller: whenever template
execution against the event fails it returns the empty string, and the
transformed record is still produced with that field empty. -/
theorem execTemplate_recovers_render_error (tpl : Template) (info : DockerEventInfo)
    (cfg : EventConfig) :
    (∀ e, execTemplateE tpl info = Except.error e → execTemplate tpl info = "") ∧
    ((∃ e, execTemplateE cfg.Description { info with Host := cfg.Host } = Except.error e) →
      (getRiemannEvent info cfg).Description = "") := by
  constructor
  · intro e h
    simp [execTemplate, h]
  · rintro ⟨e, h⟩
    simp [getRiemannEvent, execTemplate, h]

/-- Witness for C5: a template over an unknown field renders as the empty
string and the record built from a config with that description template
carries an empty description. -/
theorem execTemplate_recovers_render_error_witness :
    execTemplate badTemplate sampleInfo = "" ∧
    (getRiemannEvent sampleInfo badCfg).Description = "" :=
  ⟨(execTemplate_recovers_render_error badTemplate sampleInfo badCfg).1
      "cannot evaluate field Missing" rfl,
   (execTemplate_recovers_render_error badTemplate sampleInfo badCfg).2
      ⟨"cannot evaluate field Missing", rfl⟩⟩

/-- Claim C6: the heartbeat stage is started iff the configured heartbeat
service string is non-empty; with an empty service no heartbeat record is
ever contributed to the sender queue, and the transformed event records are
unaffected by the heartbeat configuration. -/
theorem heartbeat_disabled_iff_empty_service (hb : REvent) (cfg : EventConfig)
    (events : List DockerEventInfo) (ticks : List Int) :
    (heartbeatEnabled hb = true ↔ hb.Service ≠ "") ∧
    (hb.Service = "" → (senderQueueInputs cfg hb events ticks).2 = []) ∧
    (∀ hb2 : REvent, (senderQueueInputs cfg hb events ticks).1 =
      (senderQueueInputs cfg hb2 events ticks).1) := by
  refine ⟨?_, ?_, fun hb2 => rfl⟩
  · simp [heartbeatEnabled]
  · intro h
    simp [senderQueueInputs, heartbeatRecords, h]

/-- Witness for C6: with an empty heartbeat service no heartbeat record
reaches the queue over three ticks. -/
theorem heartbeat_disabled_iff_empty_service_witness :
    (senderQueueInputs cfgA sampleHbDisabled [sampleInfo] [1, 2, 3]).2 = [] :=
  (heartbeat_disabled_iff_empty_service sampleHbDisabled cfgA [sampleInfo] [1, 2, 3]).2.1 rfl

/-- Counterexample to claim C7: with the positive configured ttl 5 the
firing period is 2 seconds, not the claimed ttl/2 = 2.5 seconds, because the
Go conversion to `time.Duration` truncates the quotient. -/
theorem heartbeatInterval_not_half_ttl_cex :
    ((heartbeatIntervalSeconds 5 : ℤ) : ℚ) ≠ (5 : ℚ) / 2 := by
  norm_num [heartbeatIntervalSeconds, goTruncToInt]

/-- Claim C7 (amended): for every positive configured ttl the heartbeat
period is `ttl/2` truncated (rounded down) to a whole number of seconds, and
it equals `ttl/2` exactly iff the ttl is an even integer number of
seconds. -/
theorem heartbeatInterval_trunc_spec (ttl : ℚ) (h : 0 < ttl) :
    heartbeatIntervalSeconds ttl = ⌊ttl / 2⌋ ∧
    (((heartbeatIntervalSeconds ttl : ℤ) : ℚ) = ttl / 2 ↔ ∃ k : ℤ, ttl = 2 * k) := by
  have hfloor : heartbeatIntervalSeconds ttl = ⌊ttl / 2⌋ := by
    unfold heartbeatIntervalSeconds goTruncToInt
    rw [if_pos (by positivity)]
  refine ⟨hfloor, ?_⟩
  rw [hfloor]
  constructor
  · intro hf
    exact ⟨⌊ttl / 2⌋, by rw [hf]; ring⟩
  · rintro ⟨k, rfl⟩
    have h2 : (2 * (k : ℚ)) / 2 = (k : ℚ) := by ring
    rw [h2, Int.floor_intCast]

/-- Witness for the amended C7: at the default ttl of 60 the period is the
floor of 30, which is exactly half the ttl. -/
theorem heartbeatInterval_trunc_spec_witness :
    heartbeatIntervalSeconds 60 = ⌊(60 : ℚ) / 2⌋ ∧
    (((heartbeatIntervalSeconds 60 : ℤ) : ℚ) = (60 : ℚ) / 2 ↔ ∃ k : ℤ, (60 : ℚ) = 2 * k) :=
  heartbeatInterval_trunc_spec 60 (by norm_num)

/-- Association-list lookup is invariant under permutation of entries with
pairwise-distinct keys: any two iteration orders of the same Go map give the
same mapping. -/
theorem lookupAttr_eq_of_perm (l₁ l₂ : List (String × String)) (h : l₁.Perm l₂) :
    (l₁.map Prod.fst).Nodup → ∀ k, lookupAttr k l₁ = lookupAttr k l₂ := by
  induction h with
  | nil => exact fun _ _ => rfl
  | cons x h ih =>
    intro hnd k
    simp only [List.map_cons, List.nodup_cons] at hnd
    simp only [lookupAttr]
    rw [ih hnd.2 k]
  | swap x y l =>
    intro hnd k
    simp only [List.map_cons, List.nodup_cons, List.mem_cons] at hnd
    have hxy : y.1 ≠ x.1 := fun hxx => hnd.1 (Or.inl hxx)
    simp only [lookupAttr]
    split_ifs with h1 h2 h2
    · exact absurd (h1.symm.trans h2) hxy
    · rfl
    · rfl
    · rfl
  | trans h1 h2 ih1 ih2 =>
    intro hnd k
    rw [ih1 hnd k, ih2 (((h1.map Prod.fst).nodup_iff).mp hnd) k]

/-- Claim C8: the transformation of a raw event into a record is
deterministic: two invocations on the same event and the same configuration
(the attribute map possibly presented in a different iteration order, with
distinct keys as a Go map guarantees) produce records with identical host,
time, service, description, state, metric, ttl, tags in the same order, and
attributes mapping. -/
theorem getRiemannEvent_deterministic (cfg₁ cfg₂ : EventConfig)
    (info₁ info₂ : DockerEventInfo) (hinfo : info₁ = info₂)
    (hHost : cfg₁.Host = cfg₂.Host) (hService : cfg₁.Service = cfg₂.Service)
    (hDescription : cfg₁.Description = cfg₂.Description)
    (hState : cfg₁.State = cfg₂.State) (hMetric : cfg₁.Metric = cfg₂.Metric)
    (hTags : cfg₁.Tags = cfg₂.Tags)
    (hAttrs : cfg₁.Attributes.Perm cfg₂.Attributes)
    (hnd : (cfg₁.Attributes.map Prod.fst).Nodup) :
    REventEquiv (getRiemannEvent info₁ cfg₁) (getRiemannEvent info₂ cfg₂) := by
  subst hinfo
  obtain ⟨h1, s1, t1, d1, tg1, st1, m1, a1⟩ := cfg₁
  obtain ⟨h2, s2, t2, d2, tg2, st2, m2, a2⟩ := cfg₂
  simp only at hHost hService hDescription hState hMetric hTags hAttrs hnd
  subst hHost; subst hService; subst hDescription; subst hState; subst hMetric; subst hTags
  refine ⟨rfl, rfl, rfl, rfl, rfl, rfl, rfl, rfl, fun k => ?_⟩
  apply lookupAttr_eq_of_perm _ _ (hAttrs.map _)
  rw [List.map_map]
  have hcomp : (Prod.fst ∘ fun kv : String × Template =>
      (kv.1, execTemplate kv.2 { info₁ with Host := h1 })) = Prod.fst :=
    funext fun kv => rfl
  rw [hcomp]
  exact hnd

/-- Witness for C8: the same config presented in two iteration orders of its
attribute map transforms the sample event into equivalent records. -/
theorem getRiemannEvent_deterministic_witness :
    REventEquiv (getRiemannEvent sampleInfo cfgA) (getRiemannEvent sampleInfo cfgB) :=
  getRiemannEvent_deterministic cfgA cfgB sampleInfo sampleInfo rfl rfl rfl rfl rfl rfl rfl
    (by decide) (by decide)

/-- Counterexample to claim C9: with the shared heartbeat pointer already
enqueued and awaiting delivery (observed time 100), the next generator tick
mutates the shared object in place, so the very record awaiting delivery now
reads time 200: an entity placed on a queue is mutated afterwards. -/
theorem heartbeat_shared_mutation_cex :
    QPtr.hb ∈ sampleState0.queue ∧
    (derefQ sampleState0 QPtr.hb).Time = 100 ∧
    (derefQ (heartbeatTick sampleState0 200) QPtr.hb).Time = 200 := by
  refine ⟨?_, rfl, rfl⟩
  simp [sampleState0]

/-- Claim C9 (amended): every transformed record is immutable once enqueued
(its dereference is unchanged by heartbeat ticks, transformer enqueues and
sender re-enqueues), and the sender re-enqueues pointers unmodified; the one
exception is the shared heartbeat object, whose `Time` field (and only that
field) is overwritten by each generator tick, which can affect a previously
enqueued, not yet delivered occurrence of the heartbeat pointer. -/
theorem queue_immutability_spec (s : PipelineState) (t : Int) (cfg : EventConfig)
    (ev : DockerEventInfo) (r : REvent) (p q : QPtr) :
    derefQ (heartbeatTick s t) (QPtr.fresh r) = derefQ s (QPtr.fresh r) ∧
    (heartbeatTick s t).hbEv = { s.hbEv with Time := t } ∧
    derefQ (transformerEnqueue cfg ev s) p = derefQ s p ∧
    derefQ (senderRequeue s q) p = derefQ s p := by
  refine ⟨rfl, rfl, ?_, ?_⟩ <;> cases p <;> rfl

/-- Claim C10: the record produced by the transformer always carries a zero
time-to-live (the configured event ttl is never attached to container-event
records), while the heartbeat record built at startup carries the configured
heartbeat ttl. -/
theorem getRiemannEvent_ttl_zero (info : DockerEventInfo) (cfg : EventConfig)
    (host description service : String) (metric : ℚ) (state : String)
    (tags : List String) (ttl : ℚ) (attributes : List (String × String)) :
    (getRiemannEvent info cfg).Ttl = 0 ∧
    (mkHeartbeat host description service metric state tags ttl attributes).Ttl = ttl :=
  ⟨rfl, rfl⟩

end RiemannDockerAgent
